import Mathlib

/-!
Verification of the per-frame primitive preparation and composition pipeline
of `gaussian_renderer/__init__.py` (functions `render`, `render_no_train`,
`deform_gs`).

Tensors are embedded as Lean lists over exact rationals; a structure-of-arrays
over `N` primitives becomes a tuple of lists of length `N`.  The external
collaborators (the differentiable rasterizer, the deformation network
`pc._deformation`, the activation functions from `scene.gaussian_model`, the
spherical-harmonic basis evaluator `utils.sh_utils.eval_sh` and `math.tan`)
are modelled as function parameters / function-valued fields, since their
bodies live outside this source file.  The call to the external rasterizer is
recorded in the result so that theorems can speak about the arguments the
pipeline hands to it.
-/

/-- A 3-component row (a position, an RGB triple, a per-axis scale, ...). -/
structure Vec3 where
  x : ℚ
  y : ℚ
  z : ℚ
deriving DecidableEq, Repr

/-- A 4-component quaternion row (`pc._rotation` has shape N×4). -/
structure Quat where
  a : ℚ
  b : ℚ
  c : ℚ
  d : ℚ
deriving DecidableEq, Repr

/-- Does the character list `hay` start with `needle`? -/
def beginsWith : List Char → List Char → Bool
  | [], _ => true
  | _ :: _, [] => false
  | a :: as, b :: bs => a == b && beginsWith as bs

/-- Does `needle` occur as a contiguous run inside `hay`? -/
def hasSub (needle : List Char) : List Char → Bool
  | [] => needle.isEmpty
  | c :: cs => beginsWith needle (c :: cs) || hasSub needle cs

/-- Python's substring test `needle in hay` on strings. -/
def strIn (needle hay : String) : Bool :=
  hasSub needle.toList hay.toList

/-- The string literal "coarse" used by the stage dispatch. -/
def coarseStr : String := "coarse"

/-- The string literal "fine" used by the stage dispatch. -/
def fineStr : String := "fine"

/-- The string literal "PanopticSports" used by the camera-type branch. -/
def panopticSportsStr : String := "PanopticSports"

/-- Python's `int(q)` (truncation toward zero) on a rational. -/
def pyInt (q : ℚ) : ℤ :=
  q.num / (q.den : ℤ)

/-- The `GaussianRasterizationSettings` record of `diff_gaussian_rasterization`
    (lines 40-53 / 154-167): the configuration record handed to the external
    rasterizer. -/
structure GaussianRasterizationSettings where
  image_height : ℤ
  image_width : ℤ
  tanfovx : ℚ
  tanfovy : ℚ
  bg : List ℚ
  scale_modifier : ℚ
  viewmatrix : List (List ℚ)
  projmatrix : List (List ℚ)
  sh_degree : ℕ
  campos : Vec3
  prefiltered : Bool
  debug : Bool
deriving DecidableEq, Repr

/-- The per-primitive arguments of the rasterizer invocation
    (lines 117-125 / 265-273).  `none` encodes Python `None`. -/
structure RasterArgs where
  means3D : List Vec3
  means2D : List Vec3
  shs : Option (List (List Vec3))
  colors_precomp : Option (List Vec3)
  opacities : List ℚ
  scales : Option (List Vec3)
  rotations : Option (List Quat)
  cov3D_precomp : Option (List ℚ)
deriving DecidableEq, Repr

/-- What the external rasterizer returns: `rendered_image, radii, depth`. -/
structure RasterResult where
  rendered_image : List (List (List ℚ))
  radii : List ℚ
  depth : List (List ℚ)
deriving DecidableEq, Repr

/-- The type of the external rasterizer collaborator
    (`GaussianRasterizer(raster_settings=...)` applied to `RasterArgs`). -/
def Rasterizer : Type :=
  GaussianRasterizationSettings → RasterArgs → RasterResult

/-- The type of the external deformation network `pc._deformation`
    (positions, scales, rotations, opacities, SH coefficients, per-primitive
    time ↦ their deformed counterparts).  It receives the possibly-`None`
    scale/rotation values exactly as the call sites pass them. -/
def DeformationNet : Type :=
  List Vec3 → Option (List Vec3) → Option (List Quat) → List ℚ →
    List (List Vec3) → List ℚ →
    List Vec3 × Option (List Vec3) × Option (List Quat) × List ℚ × List (List Vec3)

/-- The scene model `pc : GaussianModel` as used by this file: its tensor
    attributes, plus its externally-defined function members (the deformation
    network `_deformation`, the three activations, `get_covariance`), which
    are modelled as function-valued fields because their bodies live in
    `scene/gaussian_model.py`, outside this source file. -/
structure GaussianModel where
  get_xyz : List Vec3
  _opacity : List ℚ
  get_features : List (List Vec3)
  _scaling : List Vec3
  _rotation : List Quat
  _deformation_table : List Bool
  _deformation : DeformationNet
  scaling_activation : List Vec3 → List Vec3
  rotation_activation : List Quat → List Quat
  opacity_activation : List ℚ → List ℚ
  get_covariance : ℚ → List ℚ
  active_sh_degree : ℕ
  max_sh_degree : ℕ

/-- The `viewpoint_camera` argument.  In the source it is duck-typed: an
    object with attributes (`FoVx`, ..., `camera_center`, `time`) in the
    ordinary case, or a dict `{'camera': ..., 'time': ...}` when
    `cam_type == "PanopticSports"`.  Both interfaces are carried as fields of
    one record; each branch of the code reads only its own fields. -/
structure ViewpointCamera where
  FoVx : ℚ
  FoVy : ℚ
  image_height : ℚ
  image_width : ℚ
  world_view_transform : List (List ℚ)
  full_proj_transform : List (List ℚ)
  camera_center : Vec3
  time : ℚ
  pan_camera : GaussianRasterizationSettings
  pan_time : ℚ

/-- The `pipe` configuration argument. -/
structure Pipe where
  compute_cov3D_python : Bool
  convert_SHs_python : Bool
  debug : Bool
deriving DecidableEq, Repr

/-- The optional `cams_pc` dict of `render_no_train`: marker (camera-glyph)
    primitives with positions `xyzs`, orientations `qs`, a fixed scale
    3-vector, and the two visibility toggles. -/
structure CamsPC where
  xyzs : List Vec3
  qs : List Quat
  scale : Vec3
  show_cameras : Bool
  show_scene : Bool
deriving DecidableEq, Repr

/-- Python exceptions this file can observe: the `NotImplementedError` of the
    stage dispatch, and the exception `retain_grad` may raise (caught by the
    bare `except: pass` at lines 30-33). -/
inductive PyErr where
  | notImplementedError
  | retainGradUnsupported
deriving DecidableEq, Repr

/-- The spec's name (`UnsupportedStageError`) for the `NotImplementedError`
    raised by the stage dispatch. -/
def UnsupportedStageError : PyErr :=
  PyErr.notImplementedError

/-- Embedding of `screenspace_points.retain_grad()`: succeeds or raises depending on
    whether the execution environment supports gradient retention. -/
def retain_grad (supported : Bool) : Except PyErr Unit :=
  if supported then Except.ok () else Except.error PyErr.retainGradUnsupported

/-- The bundle `render` / `render_no_train` return (lines 131-135 / 276-280),
    together with a record of the settings and arguments of the external
    rasterizer invocation that produced it. -/
structure RenderOutput where
  render : List (List (List ℚ))
  viewspace_points : List Vec3
  visibility_filter : List Bool
  radii : List ℚ
  depth : List (List ℚ)
deriving DecidableEq, Repr

/-- A completed render call: the rasterizer invocation (settings and
    per-primitive arguments) and the returned output dict. -/
structure RenderCall where
  settings : GaussianRasterizationSettings
  args : RasterArgs
  output : RenderOutput
deriving DecidableEq, Repr

/-- Lines 77-89 / 192-200 / 313-321: the stage dispatch shared verbatim by
    `render`, `render_no_train` and `deform_gs`.  `"coarse" in stage` gives an
    identity pass-through; `"fine" in stage` delegates to the external
    deformation network; any other stage raises `NotImplementedError`. -/
def stageSelect (stage : String) (pc : GaussianModel)
    (means3D : List Vec3) (scales : Option (List Vec3)) (rotations : Option (List Quat))
    (opacity : List ℚ) (shs : List (List Vec3)) (time : List ℚ) :
    Except PyErr
      (List Vec3 × Option (List Vec3) × Option (List Quat) × List ℚ × List (List Vec3)) :=
  if strIn coarseStr stage then
    Except.ok (means3D, scales, rotations, opacity, shs)
  else if strIn fineStr stage then
    Except.ok (pc._deformation means3D scales rotations opacity shs time)
  else
    Except.error PyErr.notImplementedError

/-- Lines 40-53 / 154-167: construction of the rasterizer configuration in
    the non-PanopticSports case.  `mathTan` is Python's `math.tan`, an
    external library function, passed in abstractly. -/
def buildRasterSettings (mathTan : ℚ → ℚ) (viewpoint_camera : ViewpointCamera)
    (bg_color : List ℚ) (scaling_modifier : ℚ) (pc : GaussianModel) (pipe : Pipe) :
    GaussianRasterizationSettings :=
  { image_height := pyInt viewpoint_camera.image_height
    image_width := pyInt viewpoint_camera.image_width
    tanfovx := mathTan (viewpoint_camera.FoVx * 0.5)
    tanfovy := mathTan (viewpoint_camera.FoVy * 0.5)
    bg := bg_color
    scale_modifier := scaling_modifier
    viewmatrix := viewpoint_camera.world_view_transform
    projmatrix := viewpoint_camera.full_proj_transform
    sh_degree := pc.active_sh_degree
    campos := viewpoint_camera.camera_center
    prefiltered := false
    debug := pipe.debug }

/-- Embedding of `.transpose(1, 2).view(-1, 3, (max_sh_degree+1)**2)` on one N×C×3 row of
    `get_features` (line 104): the C×3 coefficient block becomes a 3×C block,
    one coefficient list per color channel. -/
def transposeRow (row : List Vec3) : List (List ℚ) :=
  [row.map Vec3.x, row.map Vec3.y, row.map Vec3.z]

/-- Python's `torch.clamp_min`, elementwise lower bound. -/
def clamp_min (q lo : ℚ) : ℚ :=
  max q lo

/-- The type of the external spherical-harmonic evaluator: degree, one
    primitive's 3×C coefficient block, view direction ↦ RGB.  `eval_sh`
    lives in `utils/sh_utils.py`, outside this source file, and the direction
    normalization `dir_pp / dir_pp.norm(dim=1)` (line 106) involves a square
    root with no exact rational embedding; since the normalized direction is
    a function of the raw offset `dir_pp` alone, the composition
    `eval_sh(deg, sh, normalize(dir))` is modelled as one abstract evaluator
    applied to the raw offset. -/
def EvalSh : Type :=
  ℕ → List (List ℚ) → Vec3 → Vec3

/-- Lines 104-108: the in-pipeline SH → RGB conversion, evaluated at the
    given `positions` (the call site passes the model's original
    `pc.get_xyz`): per primitive, the view direction is
    `position - camera_center`, the external evaluator is applied to the
    transposed coefficient block, and the result is biased by 0.5 and clamped
    below at 0. -/
def shColorsAt (eval_sh : EvalSh) (degree : ℕ) (features : List (List Vec3))
    (positions : List Vec3) (camera_center : Vec3) : List Vec3 :=
  let shs_view := features.map transposeRow
  let dir_pp := positions.map (fun p =>
    Vec3.mk (p.x - camera_center.x) (p.y - camera_center.y) (p.z - camera_center.z))
  let sh2rgb := List.zipWith (fun sv d => eval_sh degree sv d) shs_view dir_pp
  sh2rgb.map (fun c =>
    Vec3.mk (clamp_min (c.x + 0.5) 0) (clamp_min (c.y + 0.5) 0) (clamp_min (c.z + 0.5) 0))

/-- Squared Euclidean norm of a position row. -/
def dist2 (p : Vec3) : ℚ :=
  p.x * p.x + p.y * p.y + p.z * p.z

/-- The comparison `torch.norm(means3D_final, dim=1) < show_radius` for one
    row (line 212-214), embedded over ℚ: since the Euclidean norm is the
    nonnegative square root of `dist2 p`, the comparison is equivalent to the
    executable rational test below (`normLt_iff_sqrt_lt`). -/
def normLt (p : Vec3) (r : ℚ) : Bool :=
  decide (0 < r) && decide (dist2 p < r * r)

/-- Line 214: the boolean bounding mask, one entry per primitive. -/
def radiusMask (means3D_final : List Vec3) (show_radius : ℚ) : List Bool :=
  means3D_final.map (fun p => normLt p show_radius)

/-- Boolean-mask indexing `t[mask]` along the primitive axis
    (lines 216-221). -/
def applyMask {α : Type} : List Bool → List α → List α
  | [], _ => []
  | _ :: _, [] => []
  | b :: bs, x :: xs => if b then x :: applyMask bs xs else applyMask bs xs

/-- The structure-of-arrays state of `render_no_train` at the composition
    step: the six per-primitive arrays handed on to the rasterizer.  `scales`
    and `rotations` carry the `Option` of the shared deformation interface
    (they are always set on this path). -/
structure SoA where
  means2D : List Vec3
  means3D : List Vec3
  scales : Option (List Vec3)
  opacity : List ℚ
  shs : List (List Vec3)
  rotations : Option (List Quat)
deriving DecidableEq, Repr

/-- Lines 225-261: the composition engine.  When `cams_pc` is present and
    `show_cameras` is set, marker attributes are synthesized from the
    descriptor: positions `xyzs` and orientations `qs` are taken directly;
    the color block is an all-zero placeholder broadcast to the scene set's
    coefficient width `shs_final.shape[1]`; opacity is fixed at 1; each
    scale row is the descriptor's fixed `scale` vector (zeros plus `scale[i]`
    in column i); the marker 2D anchors are fresh zeros.  With `show_scene`
    the marker arrays are appended after the scene arrays, otherwise they
    replace them. -/
def composeWithCams (s : SoA) (cams_pc : Option CamsPC) : SoA :=
  match cams_pc with
  | none => s
  | some cams =>
    if cams.show_cameras then
      let xyzs := cams.xyzs
      let rotations_ := cams.qs
      let shs_ := xyzs.map (fun _ => List.replicate (s.shs.headD []).length (Vec3.mk 0 0 0))
      let opacity_ := xyzs.map (fun _ => (1 : ℚ))
      let scales_ := xyzs.map (fun _ => cams.scale)
      let means2D_ := xyzs.map (fun _ => Vec3.mk 0 0 0)
      let means3D_ := xyzs
      if cams.show_scene then
        { means2D := s.means2D ++ means2D_
          means3D := s.means3D ++ means3D_
          scales := s.scales.map (· ++ scales_)
          opacity := s.opacity ++ opacity_
          shs := s.shs ++ shs_
          rotations := s.rotations.map (· ++ rotations_) }
      else
        { means2D := means2D_
          means3D := means3D_
          scales := some scales_
          opacity := opacity_
          shs := shs_
          rotations := some rotations_ }
    else s

/-- Lines 20-135: the training render entry point.  External collaborators
    (`rasterizer`, `math.tan`, `eval_sh`, and the environment's support for
    `retain_grad`) are passed in; everything else mirrors the source
    line by line.  The result records the rasterizer invocation together
    with the returned dict. -/
def render (rasterizer : Rasterizer) (mathTan : ℚ → ℚ) (eval_sh : EvalSh)
    (retain_grad_supported : Bool)
    (viewpoint_camera : ViewpointCamera) (pc : GaussianModel) (pipe : Pipe)
    (bg_color : List ℚ) (scaling_modifier : ℚ := 1)
    (override_color : Option (List Vec3) := none)
    (stage : String := fineStr) (cam_type : Option String := none) :
    Except PyErr RenderCall :=
  -- lines 29-33: zero tensor for screen-space gradients; retain_grad failure
  -- is swallowed by the bare `except: pass`
  let screenspace_points : List Vec3 := pc.get_xyz.map (fun _ => Vec3.mk 0 0 0)
  let _ := match retain_grad retain_grad_supported with
           | Except.ok _ => ()
           | Except.error _ => ()
  -- lines 36-57: rasterization configuration and per-primitive time
  let means3D := pc.get_xyz
  let settings_time :=
    if cam_type ≠ some panopticSportsStr then
      (buildRasterSettings mathTan viewpoint_camera bg_color scaling_modifier pc pipe,
        viewpoint_camera.time)
    else
      (viewpoint_camera.pan_camera, viewpoint_camera.pan_time)
  let raster_settings := settings_time.1
  let time := List.replicate means3D.length settings_time.2
  -- lines 62-64
  let means2D := screenspace_points
  let opacity := pc._opacity
  let shs := pc.get_features
  -- lines 68-75: precomputed covariance vs. raw scale/rotation
  let scr :=
    if pipe.compute_cov3D_python then
      ((none : Option (List Vec3)), (none : Option (List Quat)),
        some (pc.get_covariance scaling_modifier))
    else
      (some pc._scaling, some pc._rotation, (none : Option (List ℚ)))
  let scales := scr.1
  let rotations := scr.2.1
  let cov3D_precomp := scr.2.2
  -- line 76 (unused)
  let _ := pc._deformation_table
  -- lines 77-89: stage dispatch
  match stageSelect stage pc means3D scales rotations opacity shs time with
  | Except.error e => Except.error e
  | Except.ok (means3D_final, scales_final, rotations_final, opacity_final, shs_final) =>
    -- lines 93-95: activations (externally-defined members applied to the
    -- possibly-None tensors)
    let scales_final := scales_final.map pc.scaling_activation
    let rotations_final := rotations_final.map pc.rotation_activation
    let opacity := pc.opacity_activation opacity_final
    -- lines 101-113: color resolution
    let colors_precomp : Option (List Vec3) :=
      match override_color with
      | none =>
        if pipe.convert_SHs_python then
          some (shColorsAt eval_sh pc.active_sh_degree pc.get_features pc.get_xyz
            viewpoint_camera.camera_center)
        else none
      | some oc => some oc
    -- lines 117-125: rasterizer invocation
    let args : RasterArgs :=
      { means3D := means3D_final
        means2D := means2D
        shs := some shs_final
        colors_precomp := colors_precomp
        opacities := opacity
        scales := scales_final
        rotations := rotations_final
        cov3D_precomp := cov3D_precomp }
    let res := rasterizer raster_settings args
    -- lines 131-135: returned dict
    Except.ok
      { settings := raster_settings
        args := args
        output :=
          { render := res.rendered_image
            viewspace_points := screenspace_points
            visibility_filter := res.radii.map (fun r => decide (0 < r))
            radii := res.radii
            depth := res.depth } }

/-- Lines 138-280: the interactive/preview render entry point.  No
    `retain_grad` attempt, no covariance or color precomputation; after the
    stage dispatch and activations it applies the radius mask to every
    per-primitive array and then the marker composition, and invokes the
    rasterizer on the result.  `cam_type` is accepted and unused, as in the
    source. -/
def render_no_train (rasterizer : Rasterizer) (mathTan : ℚ → ℚ)
    (viewpoint_camera : ViewpointCamera) (pc : GaussianModel) (pipe : Pipe)
    (bg_color : List ℚ) (scaling_modifier : ℚ := 1)
    (stage : String := fineStr) (cam_type : Option String := none)
    (cams_pc : Option CamsPC := none) (show_radius : ℚ := 2) :
    Except PyErr RenderCall :=
  let _ := cam_type
  -- line 147
  let screenspace_points : List Vec3 := pc.get_xyz.map (fun _ => Vec3.mk 0 0 0)
  -- lines 150-171
  let means3D := pc.get_xyz
  let raster_settings :=
    buildRasterSettings mathTan viewpoint_camera bg_color scaling_modifier pc pipe
  let time := List.replicate means3D.length viewpoint_camera.time
  -- lines 174-188
  let means2D := screenspace_points
  let opacity := pc._opacity
  let shs := pc.get_features
  let scales := some pc._scaling
  let rotations := some pc._rotation
  -- lines 192-200: stage dispatch
  match stageSelect stage pc means3D scales rotations opacity shs time with
  | Except.error e => Except.error e
  | Except.ok (means3D_final, scales_final, rotations_final, opacity_final, shs_final) =>
    -- lines 203-205
    let scales_final := scales_final.map pc.scaling_activation
    let rotations_final := rotations_final.map pc.rotation_activation
    let opacity := pc.opacity_activation opacity_final
    -- lines 208-209
    let cov3D_precomp := (none : Option (List ℚ))
    let colors_precomp := (none : Option (List Vec3))
    -- lines 212-221: bounding-radius mask applied to every array
    let mask := radiusMask means3D_final show_radius
    let means3D_final := applyMask mask means3D_final
    let means2D := applyMask mask means2D
    let shs_final := applyMask mask shs_final
    let opacity := applyMask mask opacity
    let scales_final := scales_final.map (applyMask mask)
    let rotations_final := rotations_final.map (applyMask mask)
    -- lines 225-261: marker composition
    let soa := composeWithCams
      { means2D := means2D, means3D := means3D_final, scales := scales_final,
        opacity := opacity, shs := shs_final, rotations := rotations_final }
      cams_pc
    -- lines 265-273: rasterizer invocation
    let args : RasterArgs :=
      { means3D := soa.means3D
        means2D := soa.means2D
        shs := some soa.shs
        colors_precomp := colors_precomp
        opacities := soa.opacity
        scales := soa.scales
        rotations := soa.rotations
        cov3D_precomp := cov3D_precomp }
    let res := rasterizer raster_settings args
    -- lines 276-280: returned dict (viewspace_points is the original,
    -- unfiltered zero tensor)
    Except.ok
      { settings := raster_settings
        args := args
        output :=
          { render := res.rendered_image
            viewspace_points := screenspace_points
            visibility_filter := res.radii.map (fun r => decide (0 < r))
            radii := res.radii
            depth := res.depth } }

/-- Lines 287-323: apply the stage dispatch to the model's raw attributes and
    return only the final positions. -/
def deform_gs (time : ℚ) (pc : GaussianModel) (stage : String := fineStr)
    (retain_grad_supported : Bool := true) : Except PyErr (List Vec3) :=
  let screenspace_points : List Vec3 := pc.get_xyz.map (fun _ => Vec3.mk 0 0 0)
  let _ := match retain_grad retain_grad_supported with
           | Except.ok _ => ()
           | Except.error _ => ()
  let means3D := pc.get_xyz
  let timeRep := List.replicate means3D.length time
  let _ := screenspace_points
  let opacity := pc._opacity
  let shs := pc.get_features
  let scales := some pc._scaling
  let rotations := some pc._rotation
  match stageSelect stage pc means3D scales rotations opacity shs timeRep with
  | Except.error e => Except.error e
  | Except.ok (means3D_final, _, _, _, _) => Except.ok means3D_final

/-! ## Helper lemmas about the mask and the norm test -/

theorem dist2_nonneg (p : Vec3) : 0 ≤ dist2 p := by
  have hx := mul_self_nonneg p.x
  have hy := mul_self_nonneg p.y
  have hz := mul_self_nonneg p.z
  unfold dist2
  linarith

/-- The executable rational test `normLt p r` holds exactly when the genuine
    Euclidean norm `√(dist2 p)` of the row is strictly below the radius. -/
theorem normLt_iff_sqrt_lt (p : Vec3) (r : ℚ) :
    normLt p r = true ↔ Real.sqrt ((dist2 p : ℚ) : ℝ) < (r : ℝ) := by
  unfold normLt
  rw [Bool.and_eq_true, decide_eq_true_eq, decide_eq_true_eq]
  constructor
  · rintro ⟨hr, hlt⟩
    have hr' : (0 : ℝ) < (r : ℝ) := by exact_mod_cast hr
    refine (Real.sqrt_lt' hr').mpr ?_
    have : ((dist2 p : ℚ) : ℝ) < ((r : ℚ) : ℝ) * ((r : ℚ) : ℝ) := by exact_mod_cast hlt
    calc ((dist2 p : ℚ) : ℝ) < (r : ℝ) * (r : ℝ) := this
      _ = (r : ℝ) ^ 2 := by ring
  · intro h
    have hr' : (0 : ℝ) < (r : ℝ) := lt_of_le_of_lt (Real.sqrt_nonneg _) h
    have hr : (0 : ℚ) < r := by exact_mod_cast hr'
    refine ⟨hr, ?_⟩
    have := (Real.sqrt_lt' hr').mp h
    have h2 : ((dist2 p : ℚ) : ℝ) < (r : ℝ) * (r : ℝ) := by
      calc ((dist2 p : ℚ) : ℝ) < (r : ℝ) ^ 2 := this
        _ = (r : ℝ) * (r : ℝ) := by ring
    exact_mod_cast h2

theorem applyMask_map_filter {α : Type} (f : α → Bool) (xs : List α) :
    applyMask (xs.map f) xs = xs.filter f := by
  induction xs with
  | nil => rfl
  | cons x xt ih =>
    simp only [List.map_cons, applyMask, List.filter_cons]
    cases h : f x <;> simp [h, ih]

theorem applyMask_zipWith {α β : Type} (m : List Bool) (xs : List α) (ys : List β) :
    applyMask m (List.zipWith Prod.mk xs ys)
      = List.zipWith Prod.mk (applyMask m xs) (applyMask m ys) := by
  induction m generalizing xs ys with
  | nil => simp [applyMask]
  | cons b bs ih =>
    cases xs with
    | nil => simp [applyMask]
    | cons x xt =>
      cases ys with
      | nil => cases b <;> simp [applyMask]
      | cons y yt => cases b <;> simp [applyMask, ih]

theorem applyMask_zip {α β : Type} (m : List Bool) (xs : List α) (ys : List β) :
    applyMask m (xs.zip ys) = (applyMask m xs).zip (applyMask m ys) := by
  simp [List.zip_eq_zipWith, applyMask_zipWith]

theorem applyMask_map_zip_filter {α : Type} (f : Vec3 → Bool) (ps : List Vec3)
    (xs : List α) (h : xs.length = ps.length) :
    applyMask (ps.map f) (ps.zip xs) = (ps.zip xs).filter (fun q => f q.1) := by
  rw [List.zip_eq_zipWith]
  induction ps generalizing xs with
  | nil => rfl
  | cons p pt ih =>
    cases xs with
    | nil => simp at h
    | cons x xt =>
      simp only [List.length_cons, Nat.succ.injEq] at h
      have hih := ih xt h
      simp only [List.map_cons, List.zipWith_cons_cons, applyMask, List.filter_cons]
      cases hf : f p <;> simp [hf, hih]

/-! ## Shared concrete instances used in concrete evaluations -/

/-- A throwaway rasterizer-settings record (the unused dict payload of the
    concrete cameras below). -/
def settings0 : GaussianRasterizationSettings :=
  { image_height := 0, image_width := 0, tanfovx := 0, tanfovy := 0, bg := []
    scale_modifier := 1, viewmatrix := [], projmatrix := [], sh_degree := 0
    campos := Vec3.mk 0 0 0, prefiltered := false, debug := false }

/-- A concrete external rasterizer: one unit radius per input primitive. -/
def raster0 : Rasterizer :=
  fun _ a => { rendered_image := [], radii := a.means3D.map (fun _ => 1), depth := [] }

/-- A concrete stand-in for `math.tan`. -/
def tan0 : ℚ → ℚ := fun q => q

/-- A concrete SH evaluator: echoes the view direction. -/
def evalSh0 : EvalSh := fun _ _ d => d

/-- Identity deformation network. -/
def deformId : DeformationNet :=
  fun m s r o sh _ => (m, s, r, o, sh)

/-- Deformation network that shifts every position by one unit in x. -/
def deformShiftX : DeformationNet :=
  fun m s r o sh _ => (m.map (fun p => Vec3.mk (p.x + 1) p.y p.z), s, r, o, sh)

/-- A concrete camera at center (0,0,-1). -/
def vc0 : ViewpointCamera :=
  { FoVx := 1, FoVy := 1, image_height := 4, image_width := 4
    world_view_transform := [], full_proj_transform := []
    camera_center := Vec3.mk 0 0 (-1), time := 0
    pan_camera := settings0, pan_time := 0 }

/-- A concrete pipe configuration with the in-pipeline SH conversion on. -/
def pipe0 : Pipe :=
  { compute_cov3D_python := false, convert_SHs_python := true, debug := false }

/-- A concrete one-primitive model at the origin whose deformation shifts the
    primitive by one unit in x. -/
def pc0 : GaussianModel :=
  { get_xyz := [Vec3.mk 0 0 0]
    _opacity := [1/2]
    get_features := [[Vec3.mk 0 0 0]]
    _scaling := [Vec3.mk 0 0 0]
    _rotation := [Quat.mk 1 0 0 0]
    _deformation_table := [true]
    _deformation := deformShiftX
    scaling_activation := id, rotation_activation := id, opacity_activation := id
    get_covariance := fun _ => []
    active_sh_degree := 0, max_sh_degree := 0 }

/-- A concrete one-primitive model far from the origin (outside the default
    preview radius 2). -/
def pcFar : GaussianModel :=
  { get_xyz := [Vec3.mk 5 0 0]
    _opacity := [1/2]
    get_features := [[Vec3.mk 0 0 0]]
    _scaling := [Vec3.mk 0 0 0]
    _rotation := [Quat.mk 1 0 0 0]
    _deformation_table := [true]
    _deformation := deformId
    scaling_activation := id, rotation_activation := id, opacity_activation := id
    get_covariance := fun _ => []
    active_sh_degree := 0, max_sh_degree := 0 }

/-- A single camera-marker descriptor, shown together with the scene. -/
def camsOne : CamsPC :=
  { xyzs := [Vec3.mk 0 0 0], qs := [Quat.mk 1 0 0 0], scale := Vec3.mk 1 1 1
    show_cameras := true, show_scene := true }

/-- An eight-marker descriptor for the concrete composition scenario. -/
def cams8 : CamsPC :=
  { xyzs := List.replicate 8 (Vec3.mk 0 0 0), qs := List.replicate 8 (Quat.mk 1 0 0 0)
    scale := Vec3.mk 1 2 3, show_cameras := true, show_scene := true }

/-- A 100-primitive structure-of-arrays scene state for the concrete
    composition scenario. -/
def soa100 : SoA :=
  { means2D := List.replicate 100 (Vec3.mk 0 0 0)
    means3D := List.replicate 100 (Vec3.mk 1 0 0)
    scales := some (List.replicate 100 (Vec3.mk 1 1 1))
    opacity := List.replicate 100 (1/2)
    shs := List.replicate 100 [Vec3.mk 0 0 0]
    rotations := some (List.replicate 100 (Quat.mk 1 0 0 0)) }

/-- The string literal "static" used as a concrete unsupported stage. -/
def otherStr : String := "static"

/-- A valid stage makes the stage dispatch succeed. -/
theorem stageSelect_ok_of_valid (stage : String) (pc : GaussianModel)
    (means3D : List Vec3) (scales : Option (List Vec3)) (rotations : Option (List Quat))
    (opacity : List ℚ) (shs : List (List Vec3)) (time : List ℚ)
    (hok : strIn coarseStr stage = true ∨ strIn fineStr stage = true) :
    ∃ v, stageSelect stage pc means3D scales rotations opacity shs time = Except.ok v := by
  unfold stageSelect
  by_cases hc : strIn coarseStr stage
  · simp [hc]
  · rcases hok with hc' | hf
    · exact absurd hc' hc
    · simp [hc, hf]

/-- The stage dispatch only ever raises `NotImplementedError`. -/
theorem stageSelect_error_eq (stage : String) (pc : GaussianModel)
    (means3D : List Vec3) (scales : Option (List Vec3)) (rotations : Option (List Quat))
    (opacity : List ℚ) (shs : List (List Vec3)) (time : List ℚ) (e : PyErr)
    (h : stageSelect stage pc means3D scales rotations opacity shs time = Except.error e) :
    e = PyErr.notImplementedError := by
  unfold stageSelect at h
  split at h
  · simp at h
  · split at h
    · simp at h
    · simp only [Except.error.injEq] at h
      exact h.symm

/-! ## Claim theorems -/

/-- C1: for every primitive set and every stage string containing the
    substring "coarse", the deformation stage selection is an identity
    pass-through — the final positions, scales, rotations, opacities and SH
    coefficient arrays handed on to the activation/rasterization steps are
    exactly the input arrays (in `render`, the rasterizer receives the
    original positions and coefficients and the activations are applied to
    the original raw scales/rotations/opacities) — and the external
    deformation transform is not invoked (both entry points are insensitive
    to the deformation member). -/
theorem C1_coarse_identity
    (stage : String) (hc : strIn coarseStr stage = true)
    (pc : GaussianModel)
    (means3D : List Vec3) (scales : Option (List Vec3)) (rotations : Option (List Quat))
    (opacity : List ℚ) (shs : List (List Vec3)) (time : List ℚ)
    (f g : DeformationNet)
    (rasterizer : Rasterizer) (mathTan : ℚ → ℚ) (eval_sh : EvalSh) (b : Bool)
    (vc : ViewpointCamera) (pipe : Pipe) (bg : List ℚ) (sm : ℚ)
    (oc : Option (List Vec3)) (ct : Option String) (cams_pc : Option CamsPC) (r : ℚ) :
    stageSelect stage pc means3D scales rotations opacity shs time
      = Except.ok (means3D, scales, rotations, opacity, shs)
    ∧ render rasterizer mathTan eval_sh b vc { pc with _deformation := f } pipe bg sm oc
        stage ct
      = render rasterizer mathTan eval_sh b vc { pc with _deformation := g } pipe bg sm oc
        stage ct
    ∧ render_no_train rasterizer mathTan vc { pc with _deformation := f } pipe bg sm
        stage ct cams_pc r
      = render_no_train rasterizer mathTan vc { pc with _deformation := g } pipe bg sm
        stage ct cams_pc r
    ∧ Except.map (fun c => c.args.means3D)
        (render rasterizer mathTan eval_sh b vc pc pipe bg sm oc stage ct)
      = Except.ok pc.get_xyz
    ∧ Except.map (fun c => c.args.shs)
        (render rasterizer mathTan eval_sh b vc pc pipe bg sm oc stage ct)
      = Except.ok (some pc.get_features)
    ∧ Except.map (fun c => c.args.opacities)
        (render rasterizer mathTan eval_sh b vc pc pipe bg sm oc stage ct)
      = Except.ok (pc.opacity_activation pc._opacity)
    ∧ Except.map (fun c => c.args.scales)
        (render rasterizer mathTan eval_sh b vc pc pipe bg sm oc stage ct)
      = Except.ok (if pipe.compute_cov3D_python then none
          else some (pc.scaling_activation pc._scaling))
    ∧ Except.map (fun c => c.args.rotations)
        (render rasterizer mathTan eval_sh b vc pc pipe bg sm oc stage ct)
      = Except.ok (if pipe.compute_cov3D_python then none
          else some (pc.rotation_activation pc._rotation)) := by
  refine ⟨by simp [stageSelect, hc], ?_, ?_, ?_, ?_, ?_, ?_, ?_⟩
  · simp [render, stageSelect, hc, buildRasterSettings]
  · simp [render_no_train, stageSelect, hc, buildRasterSettings]
  · simp [render, stageSelect, hc, Except.map]
  · simp [render, stageSelect, hc, Except.map]
  · simp [render, stageSelect, hc, Except.map]
  · cases hcov : pipe.compute_cov3D_python <;>
      simp [render, stageSelect, hc, hcov, Except.map]
  · cases hcov : pipe.compute_cov3D_python <;>
      simp [render, stageSelect, hc, hcov, Except.map]

/-- Witness for C1 at a concrete coarse-stage input. -/
theorem C1_coarse_identity_witness :
    stageSelect coarseStr pc0 pc0.get_xyz (some pc0._scaling) (some pc0._rotation)
        pc0._opacity pc0.get_features [0]
      = Except.ok (pc0.get_xyz, some pc0._scaling, some pc0._rotation, pc0._opacity,
          pc0.get_features)
    ∧ render raster0 tan0 evalSh0 true vc0 { pc0 with _deformation := deformShiftX }
        pipe0 [] 1 none coarseStr none
      = render raster0 tan0 evalSh0 true vc0 { pc0 with _deformation := deformId }
        pipe0 [] 1 none coarseStr none
    ∧ render_no_train raster0 tan0 vc0 { pc0 with _deformation := deformShiftX }
        pipe0 [] 1 coarseStr none none 2
      = render_no_train raster0 tan0 vc0 { pc0 with _deformation := deformId }
        pipe0 [] 1 coarseStr none none 2
    ∧ Except.map (fun c => c.args.means3D)
        (render raster0 tan0 evalSh0 true vc0 pc0 pipe0 [] 1 none coarseStr none)
      = Except.ok pc0.get_xyz
    ∧ Except.map (fun c => c.args.shs)
        (render raster0 tan0 evalSh0 true vc0 pc0 pipe0 [] 1 none coarseStr none)
      = Except.ok (some pc0.get_features)
    ∧ Except.map (fun c => c.args.opacities)
        (render raster0 tan0 evalSh0 true vc0 pc0 pipe0 [] 1 none coarseStr none)
      = Except.ok (pc0.opacity_activation pc0._opacity)
    ∧ Except.map (fun c => c.args.scales)
        (render raster0 tan0 evalSh0 true vc0 pc0 pipe0 [] 1 none coarseStr none)
      = Except.ok (if pipe0.compute_cov3D_python then none
          else some (pc0.scaling_activation pc0._scaling))
    ∧ Except.map (fun c => c.args.rotations)
        (render raster0 tan0 evalSh0 true vc0 pc0 pipe0 [] 1 none coarseStr none)
      = Except.ok (if pipe0.compute_cov3D_python then none
          else some (pc0.rotation_activation pc0._rotation)) :=
  C1_coarse_identity coarseStr (by decide) pc0 pc0.get_xyz (some pc0._scaling)
    (some pc0._rotation) pc0._opacity pc0.get_features [0] deformShiftX deformId
    raster0 tan0 evalSh0 true vc0 pipe0 [] 1 none none none 2

/-- C2: a stage string containing neither "coarse" nor "fine" makes both
    entry points fail with `UnsupportedStageError` (the `NotImplementedError`
    of the stage dispatch), aborting the call before the rasterizer is
    invoked (the failing result does not depend on the rasterizer); a stage
    containing "coarse" or "fine" never triggers this error — the stage
    dispatch and both entry points succeed. -/
theorem C2_unsupported_stage
    (stage : String) (pc : GaussianModel)
    (means3D : List Vec3) (scales : Option (List Vec3)) (rotations : Option (List Quat))
    (opacity : List ℚ) (shs : List (List Vec3)) (time : List ℚ)
    (rasterizer rasterizer' : Rasterizer) (mathTan : ℚ → ℚ) (eval_sh : EvalSh) (b : Bool)
    (vc : ViewpointCamera) (pipe : Pipe) (bg : List ℚ) (sm : ℚ)
    (oc : Option (List Vec3)) (ct : Option String) (cams_pc : Option CamsPC) (r : ℚ) :
    (strIn coarseStr stage = false → strIn fineStr stage = false →
      render rasterizer mathTan eval_sh b vc pc pipe bg sm oc stage ct
        = Except.error UnsupportedStageError
      ∧ render_no_train rasterizer mathTan vc pc pipe bg sm stage ct cams_pc r
        = Except.error UnsupportedStageError
      ∧ render rasterizer mathTan eval_sh b vc pc pipe bg sm oc stage ct
        = render rasterizer' mathTan eval_sh b vc pc pipe bg sm oc stage ct
      ∧ render_no_train rasterizer mathTan vc pc pipe bg sm stage ct cams_pc r
        = render_no_train rasterizer' mathTan vc pc pipe bg sm stage ct cams_pc r)
    ∧ (strIn coarseStr stage = true ∨ strIn fineStr stage = true →
      (∃ v, stageSelect stage pc means3D scales rotations opacity shs time = Except.ok v)
      ∧ (render rasterizer mathTan eval_sh b vc pc pipe bg sm oc stage ct).isOk = true
      ∧ (render_no_train rasterizer mathTan vc pc pipe bg sm stage ct cams_pc r).isOk
          = true) := by
  constructor
  · intro hc hf
    refine ⟨?_, ?_, ?_, ?_⟩ <;>
      simp [render, render_no_train, stageSelect, hc, hf, UnsupportedStageError]
  · intro hok
    refine ⟨stageSelect_ok_of_valid _ _ _ _ _ _ _ _ hok, ?_, ?_⟩
    · unfold render
      simp only
      split
      · rename_i heq
        obtain ⟨v, hv⟩ := stageSelect_ok_of_valid _ pc _ _ _ _ _ _ hok
        rw [hv] at heq
        simp at heq
      · rfl
    · unfold render_no_train
      simp only
      split
      · rename_i heq
        obtain ⟨v, hv⟩ := stageSelect_ok_of_valid _ pc _ _ _ _ _ _ hok
        rw [hv] at heq
        simp at heq
      · rfl

/-- Witness for C2: a concrete unsupported stage ("static") fails with the
    stage error in both entry points, and the concrete stages "coarse" and
    "fine" succeed. -/
theorem C2_unsupported_stage_witness :
    (render raster0 tan0 evalSh0 true vc0 pc0 pipe0 [] 1 none otherStr none
        = Except.error UnsupportedStageError
      ∧ render_no_train raster0 tan0 vc0 pc0 pipe0 [] 1 otherStr none none 2
        = Except.error UnsupportedStageError)
    ∧ (render raster0 tan0 evalSh0 true vc0 pc0 pipe0 [] 1 none coarseStr none).isOk = true
    ∧ (render raster0 tan0 evalSh0 true vc0 pc0 pipe0 [] 1 none fineStr none).isOk = true
    ∧ (render_no_train raster0 tan0 vc0 pc0 pipe0 [] 1 fineStr none none 2).isOk
        = true := by
  have hbad := (C2_unsupported_stage otherStr pc0 [] none none [] [] []
    raster0 raster0 tan0 evalSh0 true vc0 pipe0 [] 1 none none none 2).1
    (by decide) (by decide)
  have hcoarse := (C2_unsupported_stage coarseStr pc0 [] none none [] [] []
    raster0 raster0 tan0 evalSh0 true vc0 pipe0 [] 1 none none none 2).2
    (Or.inl (by decide))
  have hfine := (C2_unsupported_stage fineStr pc0 [] none none [] [] []
    raster0 raster0 tan0 evalSh0 true vc0 pipe0 [] 1 none none none 2).2
    (Or.inr (by decide))
  exact ⟨⟨hbad.1, hbad.2.1⟩, hcoarse.2.1, hfine.2.1, hfine.2.2⟩

/-- C8: the gradient-anchor retention attempt of `render` is best-effort —
    the result does not depend on whether the environment supports
    `retain_grad`, a failure of the retention operation (which does raise
    when unsupported) is never surfaced to the caller (the only error a
    render call can return is the stage error), and the render still
    proceeds to the rasterizer and returns an output whenever the stage is
    valid. -/
theorem C8_retain_grad_swallowed
    (rasterizer : Rasterizer) (mathTan : ℚ → ℚ) (eval_sh : EvalSh) (b : Bool)
    (vc : ViewpointCamera) (pc : GaussianModel) (pipe : Pipe) (bg : List ℚ) (sm : ℚ)
    (oc : Option (List Vec3)) (stage : String) (ct : Option String) :
    render rasterizer mathTan eval_sh b vc pc pipe bg sm oc stage ct
      = render rasterizer mathTan eval_sh true vc pc pipe bg sm oc stage ct
    ∧ retain_grad false = Except.error PyErr.retainGradUnsupported
    ∧ (∀ e, render rasterizer mathTan eval_sh b vc pc pipe bg sm oc stage ct
          = Except.error e → e = UnsupportedStageError)
    ∧ (strIn coarseStr stage = true ∨ strIn fineStr stage = true →
        (render rasterizer mathTan eval_sh b vc pc pipe bg sm oc stage ct).isOk = true) := by
  refine ⟨rfl, rfl, ?_, ?_⟩
  · intro e he
    unfold render at he
    simp only at he
    split at he
    · rename_i heq
      simp only [Except.error.injEq] at he
      subst he
      exact stageSelect_error_eq _ _ _ _ _ _ _ _ _ heq
    · simp at he
  · intro hok
    unfold render
    simp only
    split
    · rename_i heq
      obtain ⟨v, hv⟩ := stageSelect_ok_of_valid _ pc _ _ _ _ _ _ hok
      rw [hv] at heq
      simp at heq
    · rfl

/-- C3: composing a 100-primitive scene set with an 8-marker descriptor:
    with both toggles on, every attribute array is the scene array followed
    by the marker array (108 rows, first 100 identical to the scene set,
    last 8 with opacity 1 and the configured fixed scale vector); with
    `show_scene` off, the result is exactly the 8 marker rows; with
    `show_cameras` off (or no descriptor), exactly the scene rows. -/
theorem C3_compose_markers
    (s : SoA) (cams : CamsPC) (sc : List Vec3) (rt : List Quat)
    (hsc : s.scales = some sc) (hrt : s.rotations = some rt)
    (h3 : s.means3D.length = 100) (h2 : s.means2D.length = 100)
    (ho : s.opacity.length = 100) (hsh : s.shs.length = 100)
    (hscl : sc.length = 100) (hrtl : rt.length = 100)
    (hx : cams.xyzs.length = 8) (hq : cams.qs.length = 8) :
    (cams.show_cameras = true → cams.show_scene = true →
      -- every attribute array is scene ++ markers, in the same order
      (composeWithCams s (some cams)).means3D = s.means3D ++ cams.xyzs
      ∧ (composeWithCams s (some cams)).means2D
          = s.means2D ++ cams.xyzs.map (fun _ => Vec3.mk 0 0 0)
      ∧ (composeWithCams s (some cams)).opacity
          = s.opacity ++ cams.xyzs.map (fun _ => (1 : ℚ))
      ∧ (composeWithCams s (some cams)).shs
          = s.shs ++ cams.xyzs.map (fun _ =>
              List.replicate (s.shs.headD []).length (Vec3.mk 0 0 0))
      ∧ (composeWithCams s (some cams)).scales
          = some (sc ++ cams.xyzs.map (fun _ => cams.scale))
      ∧ (composeWithCams s (some cams)).rotations = some (rt ++ cams.qs)
      -- 108 rows in every array
      ∧ (composeWithCams s (some cams)).means3D.length = 108
      ∧ (composeWithCams s (some cams)).means2D.length = 108
      ∧ (composeWithCams s (some cams)).opacity.length = 108
      ∧ (composeWithCams s (some cams)).shs.length = 108
      ∧ (composeWithCams s (some cams)).scales.map List.length = some 108
      ∧ (composeWithCams s (some cams)).rotations.map List.length = some 108
      -- first 100 rows identical to the scene set
      ∧ (composeWithCams s (some cams)).means3D.take 100 = s.means3D
      ∧ (composeWithCams s (some cams)).means2D.take 100 = s.means2D
      ∧ (composeWithCams s (some cams)).opacity.take 100 = s.opacity
      ∧ (composeWithCams s (some cams)).shs.take 100 = s.shs
      ∧ (composeWithCams s (some cams)).scales.map (List.take 100) = some sc
      ∧ (composeWithCams s (some cams)).rotations.map (List.take 100) = some rt
      -- last 8 rows: opacity fixed at 1, scale the configured vector
      ∧ (composeWithCams s (some cams)).opacity.drop 100 = List.replicate 8 1
      ∧ (composeWithCams s (some cams)).scales.map (List.drop 100)
          = some (List.replicate 8 cams.scale))
    ∧ (cams.show_cameras = true → cams.show_scene = false →
      (composeWithCams s (some cams)).means3D = cams.xyzs
      ∧ (composeWithCams s (some cams)).means3D.length = 8
      ∧ (composeWithCams s (some cams)).opacity = List.replicate 8 1
      ∧ (composeWithCams s (some cams)).scales = some (List.replicate 8 cams.scale)
      ∧ (composeWithCams s (some cams)).rotations = some cams.qs)
    ∧ (cams.show_cameras = false → composeWithCams s (some cams) = s)
    ∧ composeWithCams s none = s := by
  refine ⟨?_, ?_, ?_, rfl⟩
  · intro hcam hscene
    have e3 : (composeWithCams s (some cams)).means3D = s.means3D ++ cams.xyzs := by
      simp [composeWithCams, hcam, hscene]
    have e2 : (composeWithCams s (some cams)).means2D
        = s.means2D ++ cams.xyzs.map (fun _ => Vec3.mk 0 0 0) := by
      simp [composeWithCams, hcam, hscene]
    have eo : (composeWithCams s (some cams)).opacity
        = s.opacity ++ cams.xyzs.map (fun _ => (1 : ℚ)) := by
      simp [composeWithCams, hcam, hscene]
    have esh : (composeWithCams s (some cams)).shs
        = s.shs ++ cams.xyzs.map (fun _ =>
            List.replicate (s.shs.headD []).length (Vec3.mk 0 0 0)) := by
      simp [composeWithCams, hcam, hscene]
    have esc : (composeWithCams s (some cams)).scales
        = some (sc ++ cams.xyzs.map (fun _ => cams.scale)) := by
      simp [composeWithCams, hcam, hscene, hsc]
    have ert : (composeWithCams s (some cams)).rotations = some (rt ++ cams.qs) := by
      simp [composeWithCams, hcam, hscene, hrt]
    refine ⟨e3, e2, eo, esh, esc, ert, ?_, ?_, ?_, ?_, ?_, ?_, ?_, ?_, ?_, ?_, ?_, ?_,
      ?_, ?_⟩
    · simp [e3, h3, hx]
    · simp [e2, h2, hx]
    · simp [eo, ho, hx]
    · simp [esh, hsh, hx]
    · simp [esc, hscl, hx]
    · simp [ert, hrtl, hq]
    · rw [e3]; exact List.take_left' h3
    · rw [e2]; exact List.take_left' h2
    · rw [eo]; exact List.take_left' ho
    · rw [esh]; exact List.take_left' hsh
    · rw [esc]; simp [List.take_left' hscl]
    · rw [ert]; simp [List.take_left' hrtl]
    · rw [eo, List.drop_left' ho, List.map_const', hx]
    · rw [esc]; simp [List.drop_left' hscl, List.map_const', hx]
  · intro hcam hscene
    refine ⟨?_, ?_, ?_, ?_, ?_⟩ <;>
      simp [composeWithCams, hcam, hscene, List.map_const', hx]
  · intro hcam
    simp [composeWithCams, hcam]

/-- Witness for C3 at the concrete 100-primitive scene and 8-marker
    descriptor. -/
theorem C3_compose_markers_witness :
    (composeWithCams soa100 (some cams8)).means3D.length = 108
    ∧ (composeWithCams soa100 (some cams8)).means3D.take 100 = soa100.means3D
    ∧ (composeWithCams soa100 (some cams8)).opacity.drop 100 = List.replicate 8 1
    ∧ (composeWithCams soa100 (some cams8)).scales.map (List.drop 100)
        = some (List.replicate 8 cams8.scale)
    ∧ (composeWithCams soa100 (some { cams8 with show_scene := false })).means3D.length = 8
    ∧ composeWithCams soa100 (some { cams8 with show_cameras := false }) = soa100
    ∧ composeWithCams soa100 none = soa100 := by
  have h := C3_compose_markers soa100 cams8 (List.replicate 100 (Vec3.mk 1 1 1))
    (List.replicate 100 (Quat.mk 1 0 0 0)) rfl rfl (by simp [soa100]) (by simp [soa100])
    (by simp [soa100]) (by simp [soa100]) (by simp) (by simp) (by simp [cams8])
    (by simp [cams8])
  have h' := C3_compose_markers soa100 { cams8 with show_scene := false }
    (List.replicate 100 (Vec3.mk 1 1 1)) (List.replicate 100 (Quat.mk 1 0 0 0))
    rfl rfl (by simp [soa100]) (by simp [soa100]) (by simp [soa100]) (by simp [soa100])
    (by simp) (by simp) (by simp [cams8]) (by simp [cams8])
  have h'' := C3_compose_markers soa100 { cams8 with show_cameras := false }
    (List.replicate 100 (Vec3.mk 1 1 1)) (List.replicate 100 (Quat.mk 1 0 0 0))
    rfl rfl (by simp [soa100]) (by simp [soa100]) (by simp [soa100]) (by simp [soa100])
    (by simp) (by simp) (by simp [cams8]) (by simp [cams8])
  obtain ⟨ha, hb, hc, hd⟩ := h
  have h1 := ha rfl rfl
  obtain ⟨ha', hb', -, -⟩ := h'
  have h2 := hb' rfl rfl
  obtain ⟨-, -, hc'', -⟩ := h''
  exact ⟨h1.2.2.2.2.2.2.1, h1.2.2.2.2.2.2.2.2.2.2.2.2.1,
    h1.2.2.2.2.2.2.2.2.2.2.2.2.2.2.2.2.2.2.1,
    h1.2.2.2.2.2.2.2.2.2.2.2.2.2.2.2.2.2.2.2,
    h2.2.1, hc'' rfl, hd⟩

/-- C4: the preview path's spatial filter retains exactly the primitives
    whose post-deformation position has Euclidean norm strictly below the
    radius, in order; a primitive survives the filter iff its norm is
    strictly below the radius; the same mask keeps every attribute row
    aligned with its position row; and `render_no_train` applies exactly
    this mask to every per-primitive array of the post-deformation state. -/
theorem C4_spatial_filter {α : Type}
    (ps : List Vec3) (r : ℚ) (xs : List α) (hlen : xs.length = ps.length)
    (rasterizer : Rasterizer) (mathTan : ℚ → ℚ)
    (vc : ViewpointCamera) (pc : GaussianModel) (pipe : Pipe) (bg : List ℚ) (sm : ℚ)
    (stage : String) (ct : Option String)
    (m3f : List Vec3) (sf : Option (List Vec3)) (rf : Option (List Quat))
    (opf : List ℚ) (shf : List (List Vec3)) :
    applyMask (radiusMask ps r) ps = ps.filter (fun p => normLt p r)
    ∧ (∀ p : Vec3, p ∈ applyMask (radiusMask ps r) ps ↔
        p ∈ ps ∧ Real.sqrt ((dist2 p : ℚ) : ℝ) < (r : ℝ))
    ∧ (applyMask (radiusMask ps r) ps).zip (applyMask (radiusMask ps r) xs)
        = (ps.zip xs).filter (fun q => normLt q.1 r)
    ∧ (stageSelect stage pc pc.get_xyz (some pc._scaling) (some pc._rotation)
          pc._opacity pc.get_features (List.replicate pc.get_xyz.length vc.time)
        = Except.ok (m3f, sf, rf, opf, shf) →
      Except.map (fun c => c.args)
          (render_no_train rasterizer mathTan vc pc pipe bg sm stage ct none r)
        = Except.ok
          { means3D := applyMask (radiusMask m3f r) m3f
            means2D := applyMask (radiusMask m3f r)
              (pc.get_xyz.map (fun _ => Vec3.mk 0 0 0))
            shs := some (applyMask (radiusMask m3f r) shf)
            colors_precomp := none
            opacities := applyMask (radiusMask m3f r) (pc.opacity_activation opf)
            scales := (sf.map pc.scaling_activation).map (applyMask (radiusMask m3f r))
            rotations := (rf.map pc.rotation_activation).map
              (applyMask (radiusMask m3f r))
            cov3D_precomp := none }) := by
  have hfil : applyMask (radiusMask ps r) ps = ps.filter (fun p => normLt p r) :=
    applyMask_map_filter (fun p => normLt p r) ps
  refine ⟨hfil, ?_, ?_, ?_⟩
  · intro p
    rw [hfil, List.mem_filter, ← normLt_iff_sqrt_lt]
  · rw [← applyMask_zip]
    exact applyMask_map_zip_filter (fun p => normLt p r) ps xs hlen
  · intro hsel
    unfold render_no_train
    simp only
    rw [hsel]
    simp [composeWithCams, Except.map, Option.map_map, List.map_const']

/-- Witness for C4 at a concrete two-primitive input. -/
theorem C4_spatial_filter_witness :
    applyMask (radiusMask [Vec3.mk 0 0 0, Vec3.mk 3 0 0] 2) [Vec3.mk 0 0 0, Vec3.mk 3 0 0]
      = [Vec3.mk 0 0 0, Vec3.mk 3 0 0].filter (fun p => normLt p 2)
    ∧ (Vec3.mk 3 0 0 ∈ applyMask (radiusMask [Vec3.mk 0 0 0, Vec3.mk 3 0 0] 2)
          [Vec3.mk 0 0 0, Vec3.mk 3 0 0] ↔
        Vec3.mk 3 0 0 ∈ [Vec3.mk 0 0 0, Vec3.mk 3 0 0]
        ∧ Real.sqrt ((dist2 (Vec3.mk 3 0 0) : ℚ) : ℝ) < ((2 : ℚ) : ℝ))
    ∧ (applyMask (radiusMask [Vec3.mk 0 0 0, Vec3.mk 3 0 0] 2)
          [Vec3.mk 0 0 0, Vec3.mk 3 0 0]).zip
        (applyMask (radiusMask [Vec3.mk 0 0 0, Vec3.mk 3 0 0] 2) [(10 : ℚ), 20])
      = ([Vec3.mk 0 0 0, Vec3.mk 3 0 0].zip [(10 : ℚ), 20]).filter
          (fun q => normLt q.1 2)
    ∧ Except.map (fun c => c.args)
          (render_no_train raster0 tan0 vc0 pc0 pipe0 [] 1 coarseStr none none 2)
        = Except.ok
          { means3D := applyMask (radiusMask pc0.get_xyz 2) pc0.get_xyz
            means2D := applyMask (radiusMask pc0.get_xyz 2)
              (pc0.get_xyz.map (fun _ => Vec3.mk 0 0 0))
            shs := some (applyMask (radiusMask pc0.get_xyz 2) pc0.get_features)
            colors_precomp := none
            opacities := applyMask (radiusMask pc0.get_xyz 2)
              (pc0.opacity_activation pc0._opacity)
            scales := ((some pc0._scaling).map pc0.scaling_activation).map
              (applyMask (radiusMask pc0.get_xyz 2))
            rotations := ((some pc0._rotation).map pc0.rotation_activation).map
              (applyMask (radiusMask pc0.get_xyz 2))
            cov3D_precomp := none } := by
  have h := C4_spatial_filter [Vec3.mk 0 0 0, Vec3.mk 3 0 0] 2 [(10 : ℚ), 20]
    (by decide) raster0 tan0 vc0 pc0 pipe0 [] 1 coarseStr none
    pc0.get_xyz (some pc0._scaling) (some pc0._rotation) pc0._opacity pc0.get_features
  exact ⟨h.1, h.2.1 (Vec3.mk 3 0 0), h.2.2.1, h.2.2.2 rfl⟩

/-- C5: with no override color and the in-pipeline SH conversion mode
    selected, the color handed to the rasterizer is exactly the SH
    evaluation result plus the 0.5 bias clamped below at 0 — so every
    component is nonnegative; a raw SH value of -0.7 resolves to 0.0, not
    -0.2. -/
theorem C5_sh_color_clamped
    (rasterizer : Rasterizer) (mathTan : ℚ → ℚ) (eval_sh : EvalSh) (b : Bool)
    (vc : ViewpointCamera) (pc : GaussianModel) (pipe : Pipe) (bg : List ℚ) (sm : ℚ)
    (stage : String) (ct : Option String)
    (hconv : pipe.convert_SHs_python = true)
    (hok : strIn coarseStr stage = true ∨ strIn fineStr stage = true) :
    Except.map (fun c => c.args.colors_precomp)
        (render rasterizer mathTan eval_sh b vc pc pipe bg sm none stage ct)
      = Except.ok (some (shColorsAt eval_sh pc.active_sh_degree pc.get_features
          pc.get_xyz vc.camera_center))
    ∧ (∀ v ∈ shColorsAt eval_sh pc.active_sh_degree pc.get_features pc.get_xyz
        vc.camera_center, 0 ≤ v.x ∧ 0 ≤ v.y ∧ 0 ≤ v.z)
    ∧ clamp_min (-0.7 + 0.5) 0 = 0
    ∧ clamp_min (-0.7 + 0.5) 0 ≠ -0.2 := by
  refine ⟨?_, ?_, by norm_num [clamp_min], by norm_num [clamp_min]⟩
  · unfold render
    simp only
    split
    · rename_i heq
      obtain ⟨v, hv⟩ := stageSelect_ok_of_valid _ pc _ _ _ _ _ _ hok
      rw [hv] at heq
      simp at heq
    · simp [Except.map, hconv]
  · intro v hv
    unfold shColorsAt at hv
    simp only [List.mem_map] at hv
    obtain ⟨c, -, rfl⟩ := hv
    refine ⟨?_, ?_, ?_⟩ <;> simp [clamp_min]

/-- Witness for C5 at a concrete input. -/
theorem C5_sh_color_clamped_witness :
    Except.map (fun c => c.args.colors_precomp)
        (render raster0 tan0 evalSh0 true vc0 pc0 pipe0 [] 1 none coarseStr none)
      = Except.ok (some (shColorsAt evalSh0 pc0.active_sh_degree pc0.get_features
          pc0.get_xyz vc0.camera_center))
    ∧ clamp_min (-0.7 + 0.5) 0 = 0
    ∧ clamp_min (-0.7 + 0.5) 0 ≠ -0.2 := by
  have h := C5_sh_color_clamped raster0 tan0 evalSh0 true vc0 pc0 pipe0 [] 1 coarseStr
    none rfl (Or.inl (by decide))
  exact ⟨h.1, h.2.2.1, h.2.2.2⟩

/-- C6: when an override color is provided, the color handed to the
    rasterizer is the override verbatim, regardless of the SH evaluator and
    of the conversion mode (the SH evaluation is skipped: the result does
    not depend on the evaluator or on `convert_SHs_python`). -/
theorem C6_override_color
    (rasterizer : Rasterizer) (mathTan : ℚ → ℚ) (eval_sh : EvalSh) (b : Bool)
    (vc : ViewpointCamera) (pc : GaussianModel) (pipe : Pipe) (bg : List ℚ) (sm : ℚ)
    (oc : List Vec3) (stage : String) (ct : Option String)
    (hok : strIn coarseStr stage = true ∨ strIn fineStr stage = true) :
    Except.map (fun c => c.args.colors_precomp)
        (render rasterizer mathTan eval_sh b vc pc pipe bg sm (some oc) stage ct)
      = Except.ok (some oc)
    ∧ (∀ eval_sh' : EvalSh,
        render rasterizer mathTan eval_sh b vc pc pipe bg sm (some oc) stage ct
          = render rasterizer mathTan eval_sh' b vc pc pipe bg sm (some oc) stage ct)
    ∧ (∀ b1 b2 : Bool,
        render rasterizer mathTan eval_sh b vc pc
            { pipe with convert_SHs_python := b1 } bg sm (some oc) stage ct
          = render rasterizer mathTan eval_sh b vc pc
            { pipe with convert_SHs_python := b2 } bg sm (some oc) stage ct) := by
  refine ⟨?_, fun _ => rfl, fun _ _ => rfl⟩
  unfold render
  simp only
  split
  · rename_i heq
    obtain ⟨v, hv⟩ := stageSelect_ok_of_valid _ pc _ _ _ _ _ _ hok
    rw [hv] at heq
    simp at heq
  · simp [Except.map]

/-- Witness for C6 at a concrete input. -/
theorem C6_override_color_witness :
    Except.map (fun c => c.args.colors_precomp)
        (render raster0 tan0 evalSh0 true vc0 pc0 pipe0 [] 1
          (some [Vec3.mk 1 0 1]) coarseStr none)
      = Except.ok (some [Vec3.mk 1 0 1])
    ∧ render raster0 tan0 evalSh0 true vc0 pc0 pipe0 [] 1 (some [Vec3.mk 1 0 1])
        coarseStr none
      = render raster0 tan0 (fun _ _ _ => Vec3.mk 9 9 9) true vc0 pc0 pipe0 [] 1
        (some [Vec3.mk 1 0 1]) coarseStr none
    ∧ render raster0 tan0 evalSh0 true vc0 pc0
        { pipe0 with convert_SHs_python := true } [] 1 (some [Vec3.mk 1 0 1])
        coarseStr none
      = render raster0 tan0 evalSh0 true vc0 pc0
        { pipe0 with convert_SHs_python := false } [] 1 (some [Vec3.mk 1 0 1])
        coarseStr none := by
  have h := C6_override_color raster0 tan0 evalSh0 true vc0 pc0 pipe0 [] 1
    [Vec3.mk 1 0 1] coarseStr none (Or.inl (by decide))
  exact ⟨h.1, h.2.1 (fun _ _ _ => Vec3.mk 9 9 9), h.2.2 true false⟩

/-- If the deformation network preserves which of its scale/rotation inputs
    are set (the external contract: same shapes in and out), then the stage
    dispatch does too. -/
theorem stageSelect_isSome_parts (stage : String) (pc : GaussianModel)
    (means3D : List Vec3) (scales : Option (List Vec3)) (rotations : Option (List Quat))
    (opacity : List ℚ) (shs : List (List Vec3)) (time : List ℚ)
    (v : List Vec3 × Option (List Vec3) × Option (List Quat) × List ℚ × List (List Vec3))
    (hdef : ∀ m s rr o sh t,
        ((pc._deformation m s rr o sh t).2.1).isSome = s.isSome
        ∧ ((pc._deformation m s rr o sh t).2.2.1).isSome = rr.isSome)
    (h : stageSelect stage pc means3D scales rotations opacity shs time = Except.ok v) :
    v.2.1.isSome = scales.isSome ∧ v.2.2.1.isSome = rotations.isSome := by
  unfold stageSelect at h
  split at h
  · simp only [Except.ok.injEq] at h
    subst h
    exact ⟨rfl, rfl⟩
  · split at h
    · simp only [Except.ok.injEq] at h
      subst h
      exact hdef means3D scales rotations opacity shs time
    · simp at h

/-- C7: the training path hands the rasterizer exactly one geometry
    encoding: with `compute_cov3D_python` the covariance argument is the
    precomputed covariance and the scale and rotation arguments are `None`;
    otherwise the covariance argument is `None` and scale and rotation are
    set — never both (assuming the external deformation contract that it
    returns set scales/rotations exactly when it receives them). -/
theorem C7_geometry_exclusive
    (rasterizer : Rasterizer) (mathTan : ℚ → ℚ) (eval_sh : EvalSh) (b : Bool)
    (vc : ViewpointCamera) (pc : GaussianModel) (pipe : Pipe) (bg : List ℚ) (sm : ℚ)
    (oc : Option (List Vec3)) (stage : String) (ct : Option String)
    (hdef : ∀ m s rr o sh t,
        ((pc._deformation m s rr o sh t).2.1).isSome = s.isSome
        ∧ ((pc._deformation m s rr o sh t).2.2.1).isSome = rr.isSome)
    (hok : strIn coarseStr stage = true ∨ strIn fineStr stage = true) :
    Except.map (fun c =>
        (c.args.cov3D_precomp, c.args.scales.isSome, c.args.rotations.isSome))
      (render rasterizer mathTan eval_sh b vc pc pipe bg sm oc stage ct)
      = Except.ok (if pipe.compute_cov3D_python
          then (some (pc.get_covariance sm), false, false)
          else (none, true, true)) := by
  unfold render
  simp only
  split
  · rename_i heq
    obtain ⟨v, hv⟩ := stageSelect_ok_of_valid _ pc _ _ _ _ _ _ hok
    rw [hv] at heq
    simp at heq
  · rename_i m' s' r' o' sh' heq
    have hparts := stageSelect_isSome_parts _ _ _ _ _ _ _ _ _ hdef heq
    cases hcov : pipe.compute_cov3D_python <;> simp_all [Except.map]

/-- Witness for C7 at a concrete input (in both covariance modes). -/
theorem C7_geometry_exclusive_witness :
    Except.map (fun c =>
        (c.args.cov3D_precomp, c.args.scales.isSome, c.args.rotations.isSome))
      (render raster0 tan0 evalSh0 true vc0 pc0 pipe0 [] 1 none fineStr none)
      = Except.ok (if pipe0.compute_cov3D_python
          then (some (pc0.get_covariance 1), false, false)
          else (none, true, true))
    ∧ Except.map (fun c =>
        (c.args.cov3D_precomp, c.args.scales.isSome, c.args.rotations.isSome))
      (render raster0 tan0 evalSh0 true vc0 pc0
        { pipe0 with compute_cov3D_python := true } [] 1 none fineStr none)
      = Except.ok (if ({ pipe0 with compute_cov3D_python := true } : Pipe).compute_cov3D_python
          then (some (pc0.get_covariance 1), false, false)
          else (none, true, true)) := by
  constructor
  · exact C7_geometry_exclusive raster0 tan0 evalSh0 true vc0 pc0 pipe0 [] 1 none
      fineStr none (fun _ _ _ _ _ _ => ⟨rfl, rfl⟩) (Or.inr (by decide))
  · exact C7_geometry_exclusive raster0 tan0 evalSh0 true vc0 pc0
      { pipe0 with compute_cov3D_python := true } [] 1 none fineStr none
      (fun _ _ _ _ _ _ => ⟨rfl, rfl⟩) (Or.inr (by decide))

/-- C9: in the training path with the in-pipeline SH conversion and no
    override color, the resolved colors are computed from the model's
    original pre-deformation positions (`pc.get_xyz`) and features
    (`pc.get_features`), for every stage including "fine"; and at a concrete
    input whose deformation moves the primitive, the resolved color differs
    from evaluating the same SH pipeline at the deformed (rasterized)
    positions. -/
theorem C9_color_from_predeformation
    (rasterizer : Rasterizer) (mathTan : ℚ → ℚ) (eval_sh : EvalSh) (b : Bool)
    (vc : ViewpointCamera) (pc : GaussianModel) (pipe : Pipe) (bg : List ℚ) (sm : ℚ)
    (stage : String) (ct : Option String)
    (hconv : pipe.convert_SHs_python = true)
    (hf : strIn fineStr stage = true) :
    Except.map (fun c => c.args.colors_precomp)
        (render rasterizer mathTan eval_sh b vc pc pipe bg sm none stage ct)
      = Except.ok (some (shColorsAt eval_sh pc.active_sh_degree pc.get_features
          pc.get_xyz vc.camera_center))
    ∧ Except.map (fun c => (c.args.means3D, c.args.colors_precomp))
        (render raster0 tan0 evalSh0 true vc0 pc0 pipe0 [] 1 none fineStr none)
      = Except.ok ([Vec3.mk 1 0 0], some [Vec3.mk 0.5 0.5 1.5])
    ∧ ([Vec3.mk 1 0 0] : List Vec3) ≠ pc0.get_xyz
    ∧ (some [Vec3.mk 0.5 0.5 1.5] : Option (List Vec3))
        ≠ some (shColorsAt evalSh0 pc0.active_sh_degree pc0.get_features
            [Vec3.mk 1 0 0] vc0.camera_center) := by
  have hcf : strIn coarseStr fineStr = false := by decide
  have hff : strIn fineStr fineStr = true := by decide
  refine ⟨?_, ?_, ?_, ?_⟩
  · unfold render
    simp only
    split
    · rename_i heq
      obtain ⟨v, hv⟩ := stageSelect_ok_of_valid _ pc _ _ _ _ _ _ (Or.inr hf)
      rw [hv] at heq
      simp at heq
    · simp [Except.map, hconv]
  · simp only [render, stageSelect, hcf, hff, Bool.false_eq_true, if_false, if_true,
      Except.map, pc0, pipe0, vc0, deformShiftX, evalSh0, shColorsAt, transposeRow,
      clamp_min]
    norm_num
  · simp only [pc0, ne_eq, List.cons.injEq, and_true, Vec3.mk.injEq]
    norm_num
  · simp only [pc0, vc0, evalSh0, shColorsAt, transposeRow, clamp_min, ne_eq,
      Option.some.injEq, List.cons.injEq, Vec3.mk.injEq]
    norm_num

/-- Witness for C9 at a concrete fine-stage input. -/
theorem C9_color_from_predeformation_witness :
    Except.map (fun c => c.args.colors_precomp)
        (render raster0 tan0 evalSh0 true vc0 pc0 pipe0 [] 1 none fineStr none)
      = Except.ok (some (shColorsAt evalSh0 pc0.active_sh_degree pc0.get_features
          pc0.get_xyz vc0.camera_center))
    ∧ ([Vec3.mk 1 0 0] : List Vec3) ≠ pc0.get_xyz := by
  have h := C9_color_from_predeformation raster0 tan0 evalSh0 true vc0 pc0 pipe0 [] 1
    fineStr none rfl (by decide)
  exact ⟨h.1, h.2.2.1⟩

/-- C10 (amended): the preview path's returned gradient anchor
    `viewspace_points` is always the original zero array with one row per
    scene primitive, untouched by the spatial filter and the marker
    composition; with a rasterizer returning one radius per input primitive,
    its row count therefore differs from the length of the returned radii
    and visibility mask exactly when the rasterized primitive count differs
    from the scene primitive count. -/
theorem C10_viewspace_anchor
    (rasterizer : Rasterizer) (mathTan : ℚ → ℚ)
    (vc : ViewpointCamera) (pc : GaussianModel) (pipe : Pipe) (bg : List ℚ) (sm : ℚ)
    (stage : String) (ct : Option String) (cams_pc : Option CamsPC) (r : ℚ)
    (hr : ∀ s a, (rasterizer s a).radii.length = a.means3D.length)
    (hok : strIn coarseStr stage = true ∨ strIn fineStr stage = true) :
    Except.map (fun c => c.output.viewspace_points)
        (render_no_train rasterizer mathTan vc pc pipe bg sm stage ct cams_pc r)
      = Except.ok (pc.get_xyz.map (fun _ => Vec3.mk 0 0 0))
    ∧ Except.map (fun c => c.output.radii.length)
        (render_no_train rasterizer mathTan vc pc pipe bg sm stage ct cams_pc r)
      = Except.map (fun c => c.args.means3D.length)
        (render_no_train rasterizer mathTan vc pc pipe bg sm stage ct cams_pc r)
    ∧ Except.map (fun c => c.output.visibility_filter.length)
        (render_no_train rasterizer mathTan vc pc pipe bg sm stage ct cams_pc r)
      = Except.map (fun c => c.args.means3D.length)
        (render_no_train rasterizer mathTan vc pc pipe bg sm stage ct cams_pc r)
    ∧ Except.map (fun c => decide (c.output.viewspace_points.length
          = c.output.radii.length))
        (render_no_train rasterizer mathTan vc pc pipe bg sm stage ct cams_pc r)
      = Except.map (fun c => decide (pc.get_xyz.length = c.args.means3D.length))
        (render_no_train rasterizer mathTan vc pc pipe bg sm stage ct cams_pc r) := by
  unfold render_no_train
  simp only
  split
  · rename_i heq
    obtain ⟨v, hv⟩ := stageSelect_ok_of_valid _ pc _ _ _ _ _ _ hok
    rw [hv] at heq
    simp at heq
  · refine ⟨?_, ?_, ?_, ?_⟩ <;> simp [Except.map, hr]

/-- Witness for C10 at a concrete preview call. -/
theorem C10_viewspace_anchor_witness :
    Except.map (fun c => c.output.viewspace_points)
        (render_no_train raster0 tan0 vc0 pcFar pipe0 [] 1 coarseStr none
          (some camsOne) 2)
      = Except.ok (pcFar.get_xyz.map (fun _ => Vec3.mk 0 0 0))
    ∧ Except.map (fun c => decide (c.output.viewspace_points.length
          = c.output.radii.length))
        (render_no_train raster0 tan0 vc0 pcFar pipe0 [] 1 coarseStr none
          (some camsOne) 2)
      = Except.map (fun c => decide (pcFar.get_xyz.length = c.args.means3D.length))
        (render_no_train raster0 tan0 vc0 pcFar pipe0 [] 1 coarseStr none
          (some camsOne) 2) := by
  have h := C10_viewspace_anchor raster0 tan0 vc0 pcFar pipe0 [] 1 coarseStr none
    (some camsOne) 2 (fun _ a => by simp [raster0]) (Or.inl (by decide))
  exact ⟨h.1, h.2.2.2⟩

/-- C10 counterexample to the claim as stated: one scene primitive outside
    the preview radius and one marker shown with the scene — the filter
    removes a row AND a marker row is added, yet the returned gradient
    anchor has exactly as many rows (one) as the returned radii and
    visibility mask and as the rasterized primitive set. -/
theorem C10_counterexample :
    radiusMask pcFar.get_xyz 2 = [false]
    ∧ pcFar.get_xyz.length = 1
    ∧ (applyMask (radiusMask pcFar.get_xyz 2) pcFar.get_xyz).length = 0
    ∧ camsOne.show_cameras = true ∧ camsOne.show_scene = true
    ∧ camsOne.xyzs.length = 1
    ∧ Except.map (fun c => (c.output.viewspace_points.length, c.output.radii.length,
          c.output.visibility_filter.length, c.args.means3D.length))
        (render_no_train raster0 tan0 vc0 pcFar pipe0 [] 1 coarseStr none
          (some camsOne) 2)
      = Except.ok (1, 1, 1, 1) := by
  have h5 : normLt (Vec3.mk 5 0 0) 2 = false := by
    simp only [normLt, dist2]
    norm_num
  have hcc : strIn coarseStr coarseStr = true := by decide
  refine ⟨?_, rfl, ?_, rfl, rfl, rfl, ?_⟩
  · simp [radiusMask, pcFar, h5]
  · simp [radiusMask, pcFar, h5, applyMask]
  · simp [render_no_train, stageSelect, hcc, Except.map, pcFar, camsOne,
      composeWithCams, radiusMask, h5, applyMask, raster0]

/-- Witness for C8 at a concrete input with gradient retention unsupported. -/
theorem C8_retain_grad_swallowed_witness :
    render raster0 tan0 evalSh0 false vc0 pc0 pipe0 [] 1 none coarseStr none
      = render raster0 tan0 evalSh0 true vc0 pc0 pipe0 [] 1 none coarseStr none
    ∧ retain_grad false = Except.error PyErr.retainGradUnsupported
    ∧ (render raster0 tan0 evalSh0 false vc0 pc0 pipe0 [] 1 none coarseStr none).isOk
        = true := by
  have h := C8_retain_grad_swallowed raster0 tan0 evalSh0 false vc0 pc0 pipe0 [] 1 none
    coarseStr none
  exact ⟨h.1, h.2.1, h.2.2.2 (Or.inl (by decide))⟩
